import Mathlib

/-!
Shallow embedding of the Sea-frontend search-and-render controller
(`handleSearch` and the pure render derivations of `App`), together with
the JavaScript string primitives the code relies on
(`String.prototype.trim`, `encodeURIComponent`, `Array.prototype.slice`).
State updates performed by the React setters are modelled as an explicit
trace of actions folded over an explicit view-state record; the outcome
of the single `fetch` call is a parameter of the run.
-/

namespace Sea

/-- Characters treated as whitespace by JavaScript `String.prototype.trim`
(WhiteSpace and LineTerminator code points). -/
def jsIsWhitespace (c : Char) : Bool :=
  let n := c.toNat
  n = 9 || n = 10 || n = 11 || n = 12 || n = 13 || n = 32 || n = 160 ||
  n = 5760 || (8192 ≤ n && n ≤ 8202) || n = 8232 || n = 8233 ||
  n = 8239 || n = 8287 || n = 12288 || n = 65279

/-- JavaScript `String.prototype.trim`: drop leading and trailing
whitespace characters. -/
def jsTrim (s : String) : String :=
  String.mk (((s.data.dropWhile jsIsWhitespace).reverse.dropWhile jsIsWhitespace).reverse)

/-- Uppercase hexadecimal digit for a value below 16, as produced by
percent-encoding. -/
def hexDigit (n : Nat) : Char :=
  if n < 10 then Char.ofNat (48 + n) else Char.ofNat (55 + n)

/-- UTF-8 byte sequence of a Unicode code point, each byte as a `Nat`. -/
def utf8Bytes (n : Nat) : List Nat :=
  if n < 128 then [n]
  else if n < 2048 then [192 + n / 64, 128 + n % 64]
  else if n < 65536 then [224 + n / 4096, 128 + (n / 64) % 64, 128 + n % 64]
  else [240 + n / 262144, 128 + (n / 4096) % 64, 128 + (n / 64) % 64, 128 + n % 64]

/-- Percent-encoding of a single byte, uppercase hex, as in
`encodeURIComponent`. -/
def percentByte (b : Nat) : String :=
  "%" ++ String.singleton (hexDigit (b / 16)) ++ String.singleton (hexDigit (b % 16))

/-- Characters `encodeURIComponent` leaves unescaped:
ASCII letters, digits, and `- _ . ! ~ * ' ( )`. -/
def uriUnescaped (c : Char) : Bool :=
  c.isAlpha || c.isDigit ||
  c.toNat = 45 || c.toNat = 95 || c.toNat = 46 || c.toNat = 33 ||
  c.toNat = 126 || c.toNat = 42 || c.toNat = 39 || c.toNat = 40 || c.toNat = 41

/-- JavaScript `encodeURIComponent`: unescaped characters pass through,
every other character is replaced by the percent-encoding of its UTF-8
bytes. -/
def encodeURIComponent (s : String) : String :=
  String.join (s.data.map (fun c =>
    if uriUnescaped c then String.singleton c
    else String.join ((utf8Bytes c.toNat).map percentByte)))

/-- JavaScript `Array.prototype.slice(b, e)` for non-negative bounds:
elements at indices `b` through `e - 1`. -/
def jsSlice (l : List α) (b e : Nat) : List α :=
  (l.drop b).take (e - b)

/-- One scraped source document, matching the `Article` type of the
source (`title`, `url`, `text`, `gemini_summary`). -/
structure Article where
  title : String
  url : String
  text : String
  gemini_summary : String
deriving DecidableEq

/-- The three sentiment-categorized quote lists, matching the `Mentions`
type of the source. -/
structure Mentions where
  positive : List String
  neutral : List String
  negative : List String
deriving DecidableEq

/-- The parsed API response, matching the `ApiResponse` type of the
source. -/
structure ApiResponse where
  name : String
  articles : List Article
  mentions : Mentions
deriving DecidableEq

/-- The view state held by the component's five `useState` hooks. -/
structure AppState where
  searchQuery : String
  isLoading : Bool
  data : Option ApiResponse
  error : Option String
  loadingPhase : String
deriving DecidableEq

/-- The initial view state: the `useState` initializers of `App`. -/
def initialState : AppState :=
  { searchQuery := "", isLoading := false, data := none, error := none,
    loadingPhase := "" }

/-- One observable step of a `handleSearch` run: a state-setter call, a
`setTimeout` pause (milliseconds), or the issuing of the `fetch` request
(a GET, since `fetch` is called with a URL only). -/
inductive Action where
  | setIsLoading : Bool → Action
  | setData : Option ApiResponse → Action
  | setError : Option String → Action
  | setLoadingPhase : String → Action
  | delay : Nat → Action
  | fetch : String → Action
deriving DecidableEq

/-- Outcome of `response.json()`: a parsed body, or a thrown parse error
with its message. -/
inductive JsonResult where
  | parsed : ApiResponse → JsonResult
  | parseFailed : String → JsonResult
deriving DecidableEq

/-- Outcome of the `fetch` call: a rejection (carrying the thrown
`Error`'s message, or `none` when the thrown value is not an `Error`),
or a response with its HTTP status and body-parse outcome. -/
inductive FetchResult where
  | networkError : Option String → FetchResult
  | response : Nat → JsonResult → FetchResult
deriving DecidableEq

/-- `Response.ok`: status in the inclusive range 200–299. -/
def fetchOk (status : Nat) : Bool :=
  200 ≤ status && status ≤ 299

/-- Actions performed after the `fetch` call resolves or rejects: the
`!response.ok` throw, `response.json()`, `setData`, and the `catch`
branch setting the error message. -/
def afterFetch : FetchResult → List Action
  | FetchResult.networkError msg =>
      [Action.setError (some (msg.getD "An unknown error occurred"))]
  | FetchResult.response status body =>
      if fetchOk status then
        match body with
        | JsonResult.parsed r => [Action.setData (some r)]
        | JsonResult.parseFailed e => [Action.setError (some e)]
      else
        [Action.setError (some "Network response was not ok")]

/-- The full trace of a `handleSearch` invocation on query `q`, given the
fetch outcome `fr`: the guard on the trimmed query, the three clears, the
three loading phases with their two pauses, the request, the
success/catch branch, and the `finally` block. -/
def handleSearchTrace (q : String) (fr : FetchResult) : List Action :=
  if (jsTrim q).isEmpty then []
  else
    [Action.setIsLoading true,
     Action.setData none,
     Action.setError none,
     Action.setLoadingPhase "Searching social platforms...",
     Action.delay 1500,
     Action.setLoadingPhase "Scraping and parsing results...",
     Action.delay 2000,
     Action.setLoadingPhase "Analyzing sentiment and synthesizing data...",
     Action.fetch ("/api/scrape?topic=" ++ encodeURIComponent q)]
    ++ afterFetch fr
    ++ [Action.setIsLoading false, Action.setLoadingPhase ""]

/-- Effect of one action on the view state; pauses and the request itself
change no state. -/
def applyAction (s : AppState) : Action → AppState
  | Action.setIsLoading b => { s with isLoading := b }
  | Action.setData d => { s with data := d }
  | Action.setError e => { s with error := e }
  | Action.setLoadingPhase p => { s with loadingPhase := p }
  | Action.delay _ => s
  | Action.fetch _ => s

/-- Fold a trace of actions over a state. -/
def runActions (s : AppState) (tr : List Action) : AppState :=
  tr.foldl applyAction s

/-- `handleSearch`: the state after a full run on the current query, given
the fetch outcome. -/
def handleSearch (s : AppState) (fr : FetchResult) : AppState :=
  runActions s (handleSearchTrace s.searchQuery fr)

/-- Whether an action is the issuing of a network request. -/
def isFetch : Action → Bool
  | Action.fetch _ => true
  | _ => false

/-- The error message `handleSearch` stores for a failing run: the
uniform non-ok message, or the rejection's message with the
unknown-error fallback. -/
def failMsg : FetchResult → String
  | FetchResult.networkError m => m.getD "An unknown error occurred"
  | FetchResult.response _ _ => "Network response was not ok"

/-- Whether the fetch outcome makes the run take the `catch` branch. -/
def FetchResult.isFailure : FetchResult → Bool
  | FetchResult.networkError _ => true
  | FetchResult.response status _ => !fetchOk status

/-- The parsed body a run stores via `setData`, when the response is ok
and decodable. -/
def successResult : FetchResult → Option ApiResponse
  | FetchResult.response status (JsonResult.parsed r) =>
      if fetchOk status then some r else none
  | _ => none

/-- One entry of the bar-chart input, matching the object literals of the
source's `sentimentData`. -/
structure SentimentDatum where
  name : String
  count : Nat
  fill : String
deriving DecidableEq

/-- The source's `sentimentData` derivation: three labelled counts when
`data` is set, the empty list otherwise. -/
def sentimentData : Option ApiResponse → List SentimentDatum
  | some d =>
      [{ name := "Positive", count := d.mentions.positive.length, fill := "#4ade80" },
       { name := "Neutral", count := d.mentions.neutral.length, fill := "#94a3b8" },
       { name := "Negative", count := d.mentions.negative.length, fill := "#f87171" }]
  | none => []

/-- What the results section of `App` renders from a set `data`: the
subject name, the sources-analyzed badge, the three summary counts, the
chart input, the article cards, and the three sliced quote lists. -/
structure RenderedResults where
  name : String
  sourcesAnalyzed : Nat
  positiveMentions : Nat
  neutralMentions : Nat
  negativeMentions : Nat
  chart : List SentimentDatum
  articleCards : List Article
  positiveQuotes : List String
  neutralQuotes : List String
  negativeQuotes : List String
deriving DecidableEq

/-- The pure render derivation of the results section, read off the JSX:
counts are the `length`s of the mention lists, the chart comes from
`sentimentData`, articles are mapped in order, and each quote column is
`slice(1, 10)` of its category. -/
def renderResults (d : ApiResponse) : RenderedResults :=
  { name := d.name
    sourcesAnalyzed := d.articles.length
    positiveMentions := d.mentions.positive.length
    neutralMentions := d.mentions.neutral.length
    negativeMentions := d.mentions.negative.length
    chart := sentimentData (some d)
    articleCards := d.articles
    positiveQuotes := jsSlice d.mentions.positive 1 10
    neutralQuotes := jsSlice d.mentions.neutral 1 10
    negativeQuotes := jsSlice d.mentions.negative 1 10 }

/-- User interactions wired to `handleSearch` in the JSX: clicking the
submit button (which has `disabled={isLoading}`) and a key press in the
query input (whose handler only tests the key, not `isLoading`). -/
inductive UIEvent where
  | searchButtonClick : UIEvent
  | inputKeyPress : String → UIEvent
deriving DecidableEq

/-- Whether a UI event invokes `handleSearch` in the given state: a
disabled button fires no click, while the input's key handler runs
whenever the key is Enter. -/
def eventStartsSearch (s : AppState) : UIEvent → Bool
  | UIEvent.searchButtonClick => !s.isLoading
  | UIEvent.inputKeyPress k => k == "Enter"

/-- Whether string `s` begins with string `p`. -/
def strLeads (p s : String) : Bool :=
  s.data.take p.data.length == p.data

/-- The non-empty loading-phase labels set during a trace, in order. -/
def phaseLabels : List Action → List String
  | [] => []
  | a :: rest =>
      match a with
      | Action.setLoadingPhase p =>
          if p.isEmpty then phaseLabels rest else p :: phaseLabels rest
      | _ => phaseLabels rest

/-- For each non-empty loading-phase label of a trace, the duration of
the pause immediately following it; `none` when some label is not
immediately followed by a pause. -/
def phaseStepDelays : List Action → Option (List Nat)
  | [] => some []
  | a :: rest =>
      match a with
      | Action.setLoadingPhase p =>
          if p.isEmpty then phaseStepDelays rest
          else
            match rest.head? with
            | some (Action.delay d) => (phaseStepDelays rest).map (fun ds => d :: ds)
            | _ => none
      | _ => phaseStepDelays rest

/-- The loading-phase behaviour claimed of a run: exactly three labels,
beginning "Searching", "Scraping", "Analyzing" in that order, with a
pause of one fixed duration immediately after each of the three before
the next action. -/
def claimedPhasePattern (tr : List Action) : Bool :=
  (match phaseLabels tr with
   | [a, b, c] =>
       strLeads "Searching" a && strLeads "Scraping" b && strLeads "Analyzing" c
   | _ => false) &&
  (match phaseStepDelays tr with
   | some ds => ds.length == 3 && ds.all (fun d => d == ds.headD 0)
   | none => false)

/-- A sample parsed response used to instantiate theorems at concrete
inputs. -/
def sampleResponse : ApiResponse :=
  { name := "Ada",
    articles := [{ title := "t", url := "https://example.com/a", text := "x",
                   gemini_summary := "s" }],
    mentions := { positive := ["p1", "p2"], neutral := ["n1"], negative := [] } }

/-- A sample view state with a non-blank query, used to instantiate
theorems at concrete inputs. -/
def sampleState : AppState :=
  { searchQuery := "ada lovelace", isLoading := false, data := none,
    error := none, loadingPhase := "" }

/-- No action of a trace writes to the query field, so folding any trace
leaves `searchQuery` unchanged. -/
theorem runActions_searchQuery (tr : List Action) :
    ∀ s : AppState, (runActions s tr).searchQuery = s.searchQuery := by
  induction tr with
  | nil => intro s; rfl
  | cons a rest ih =>
      intro s
      have hstep : runActions s (a :: rest) = runActions (applyAction s a) rest := rfl
      rw [hstep, ih]
      cases a <;> rfl

/-- Trimming a string made of whitespace characters yields the empty
string. -/
theorem jsTrim_isEmpty_of_whitespace (q : String)
    (h : ∀ c ∈ q.data, jsIsWhitespace c = true) : (jsTrim q).isEmpty = true := by
  have h1 : q.data.dropWhile jsIsWhitespace = [] :=
    List.dropWhile_eq_nil_iff.mpr h
  simp [jsTrim, h1]
  rfl

/-- C1: submitting an empty or whitespace-only query is a no-op — the
run's trace is empty (so no request is issued) and every piece of view
state is unchanged. -/
theorem submitSearch_blank_noop (s : AppState) (fr : FetchResult)
    (h : ∀ c ∈ s.searchQuery.data, jsIsWhitespace c = true) :
    handleSearch s fr = s ∧ handleSearchTrace s.searchQuery fr = [] := by
  have ht : handleSearchTrace s.searchQuery fr = [] := by
    simp [handleSearchTrace, jsTrim_isEmpty_of_whitespace _ h]
  exact ⟨by rw [handleSearch, ht]; rfl, ht⟩

/-- Witness for C1 at a whitespace-only query in a state with stale
error and phase values. -/
theorem submitSearch_blank_noop_witness :
    handleSearch
      { searchQuery := " \t ", isLoading := true, data := none,
        error := some "previous failure", loadingPhase := "old" }
      (FetchResult.networkError none) =
      { searchQuery := " \t ", isLoading := true, data := none,
        error := some "previous failure", loadingPhase := "old" } ∧
    handleSearchTrace " \t " (FetchResult.networkError none) = [] :=
  submitSearch_blank_noop _ _ (by decide)

/-- C2: on a non-blank query the run begins by setting loading, clearing
`data` and clearing `error`, before the first phase label, any pause or
the request; the query string itself is never written. -/
theorem submitSearch_clears_before_request (s : AppState) (fr : FetchResult)
    (h : (jsTrim s.searchQuery).isEmpty = false) :
    (handleSearchTrace s.searchQuery fr).take 4 =
      [Action.setIsLoading true, Action.setData none, Action.setError none,
       Action.setLoadingPhase "Searching social platforms..."] ∧
    runActions s ((handleSearchTrace s.searchQuery fr).take 3) =
      { s with isLoading := true, data := none, error := none } ∧
    (handleSearch s fr).searchQuery = s.searchQuery := by
  refine ⟨?_, ?_, runActions_searchQuery _ s⟩
  · simp [handleSearchTrace, h]
  · simp [handleSearchTrace, h, runActions, applyAction]

/-- Witness for C2 at a concrete query and fetch outcome. -/
theorem submitSearch_clears_before_request_witness :
    (handleSearchTrace sampleState.searchQuery (FetchResult.networkError none)).take 4 =
      [Action.setIsLoading true, Action.setData none, Action.setError none,
       Action.setLoadingPhase "Searching social platforms..."] ∧
    runActions sampleState
        ((handleSearchTrace sampleState.searchQuery (FetchResult.networkError none)).take 3) =
      { sampleState with isLoading := true, data := none, error := none } ∧
    (handleSearch sampleState (FetchResult.networkError none)).searchQuery =
      sampleState.searchQuery :=
  submitSearch_clears_before_request sampleState (FetchResult.networkError none) (by decide)

/-- C3: when the fetch rejects or the response is non-ok, the run ends
with `error` set to a non-empty message, `data` still unset and loading
over; the message for a non-ok response is "Network response was not ok"
whatever the status code. (The rejection hypothesis excludes an `Error`
thrown with an empty message, which the browser's `fetch` never
produces.) -/
theorem submitSearch_failure_sets_error (s : AppState) (fr : FetchResult)
    (hq : (jsTrim s.searchQuery).isEmpty = false)
    (hf : fr.isFailure = true)
    (hm : ∀ m, fr = FetchResult.networkError (some m) → m ≠ "") :
    (handleSearch s fr).error = some (failMsg fr) ∧
    failMsg fr ≠ "" ∧
    (handleSearch s fr).data = none ∧
    (handleSearch s fr).isLoading = false ∧
    (∀ status body, fetchOk status = false →
      failMsg (FetchResult.response status body) = "Network response was not ok") := by
  refine ⟨?_, ?_, ?_, ?_, fun status body _ => rfl⟩
  · cases fr with
    | networkError m =>
        simp [handleSearch, handleSearchTrace, hq, runActions, afterFetch, applyAction, failMsg]
    | response status body =>
        have hok : fetchOk status = false := by
          simpa [FetchResult.isFailure] using hf
        simp [handleSearch, handleSearchTrace, hq, runActions, afterFetch, applyAction,
          failMsg, hok]
  · cases fr with
    | networkError m =>
        cases m with
        | none => simp [failMsg]
        | some str => simpa [failMsg] using hm str rfl
    | response status body => simp [failMsg]
  · cases fr with
    | networkError m =>
        simp [handleSearch, handleSearchTrace, hq, runActions, afterFetch, applyAction]
    | response status body =>
        have hok : fetchOk status = false := by
          simpa [FetchResult.isFailure] using hf
        simp [handleSearch, handleSearchTrace, hq, runActions, afterFetch, applyAction, hok]
  · cases fr with
    | networkError m =>
        simp [handleSearch, handleSearchTrace, hq, runActions, afterFetch, applyAction]
    | response status body =>
        have hok : fetchOk status = false := by
          simpa [FetchResult.isFailure] using hf
        simp [handleSearch, handleSearchTrace, hq, runActions, afterFetch, applyAction, hok]

/-- Witness for C3 at a 404 response, also instancing the uniform
message at status 500. -/
theorem submitSearch_failure_sets_error_witness :
    (handleSearch sampleState
        (FetchResult.response 404 (JsonResult.parsed sampleResponse))).error =
      some (failMsg (FetchResult.response 404 (JsonResult.parsed sampleResponse))) ∧
    failMsg (FetchResult.response 404 (JsonResult.parsed sampleResponse)) ≠ "" ∧
    (handleSearch sampleState
        (FetchResult.response 404 (JsonResult.parsed sampleResponse))).data = none ∧
    (handleSearch sampleState
        (FetchResult.response 404 (JsonResult.parsed sampleResponse))).isLoading = false ∧
    failMsg (FetchResult.response 500 (JsonResult.parsed sampleResponse)) =
      "Network response was not ok" := by
  have h := submitSearch_failure_sets_error sampleState
    (FetchResult.response 404 (JsonResult.parsed sampleResponse))
    (by decide) (by decide) (fun m hm => nomatch hm)
  exact ⟨h.1, h.2.1, h.2.2.1, h.2.2.2.1,
    h.2.2.2.2 500 (JsonResult.parsed sampleResponse) (by decide)⟩

/-- C4: `data` and `error` are mutually exclusive — the initial state
populates neither, and every intermediate state of any run (the `scanl`
of the trace) keeps at most one of them populated, provided the state
the run starts from does. -/
theorem data_error_mutually_exclusive (s : AppState) (fr : FetchResult)
    (h : s.data = none ∨ s.error = none) :
    (initialState.data = none ∨ initialState.error = none) ∧
    ∀ t ∈ List.scanl applyAction s (handleSearchTrace s.searchQuery fr),
      t.data = none ∨ t.error = none := by
  refine ⟨Or.inl rfl, ?_⟩
  intro t ht
  by_cases hb : (jsTrim s.searchQuery).isEmpty
  · simp [handleSearchTrace, hb, List.scanl] at ht
    subst ht
    exact h
  · simp only [Bool.not_eq_true] at hb
    cases fr with
    | networkError m =>
        simp [handleSearchTrace, hb, afterFetch, List.scanl, applyAction] at ht
        rcases ht with rfl | rfl | rfl | rfl | rfl | rfl | rfl | rfl | rfl | rfl | rfl | rfl | rfl <;>
          simp_all
    | response status body =>
        by_cases hok : fetchOk status
        · cases body with
          | parsed r =>
              simp [handleSearchTrace, hb, afterFetch, hok, List.scanl, applyAction] at ht
              rcases ht with rfl | rfl | rfl | rfl | rfl | rfl | rfl | rfl | rfl | rfl | rfl | rfl | rfl <;>
                simp_all
          | parseFailed e =>
              simp [handleSearchTrace, hb, afterFetch, hok, List.scanl, applyAction] at ht
              rcases ht with rfl | rfl | rfl | rfl | rfl | rfl | rfl | rfl | rfl | rfl | rfl | rfl | rfl <;>
                simp_all
        · simp only [Bool.not_eq_true] at hok
          simp [handleSearchTrace, hb, afterFetch, hok, List.scanl, applyAction] at ht
          rcases ht with rfl | rfl | rfl | rfl | rfl | rfl | rfl | rfl | rfl | rfl | rfl | rfl | rfl <;>
            simp_all

/-- Witness for C4: the final state of a successful concrete run keeps
the exclusivity. -/
theorem data_error_mutually_exclusive_witness :
    (handleSearch sampleState
        (FetchResult.response 200 (JsonResult.parsed sampleResponse))).data = none ∨
    (handleSearch sampleState
        (FetchResult.response 200 (JsonResult.parsed sampleResponse))).error = none :=
  (data_error_mutually_exclusive sampleState
      (FetchResult.response 200 (JsonResult.parsed sampleResponse)) (Or.inl rfl)).2
    _ (by decide)

/-- C5 counterexample: the run does not pause a fixed duration at each of
the three loading steps — on the concrete query "ada" the claimed
pattern (three labels, each immediately followed by a pause of one
common duration) fails: the pauses are 1500 ms and 2000 ms, and the
third label is followed directly by the request. -/
theorem loading_phase_pause_claim_false :
    claimedPhasePattern (handleSearchTrace "ada" (FetchResult.networkError none)) = false := by
  decide

/-- C5 (amended): the run advances the loading phase through the fixed
labels "Searching social platforms...", "Scraping and parsing
results..." and "Analyzing sentiment and synthesizing data..." in that
order, pausing 1500 ms after the first and 2000 ms after the second;
the third label is set immediately before the request, with no pause. -/
theorem loading_phase_sequence (q : String) (fr : FetchResult)
    (h : (jsTrim q).isEmpty = false) :
    (handleSearchTrace q fr).take 9 =
      [Action.setIsLoading true, Action.setData none, Action.setError none,
       Action.setLoadingPhase "Searching social platforms...",
       Action.delay 1500,
       Action.setLoadingPhase "Scraping and parsing results...",
       Action.delay 2000,
       Action.setLoadingPhase "Analyzing sentiment and synthesizing data...",
       Action.fetch ("/api/scrape?topic=" ++ encodeURIComponent q)] := by
  simp [handleSearchTrace, h]

/-- Witness for the amended C5 at the concrete query "ada". -/
theorem loading_phase_sequence_witness :
    (handleSearchTrace "ada" (FetchResult.networkError none)).take 9 =
      [Action.setIsLoading true, Action.setData none, Action.setError none,
       Action.setLoadingPhase "Searching social platforms...",
       Action.delay 1500,
       Action.setLoadingPhase "Scraping and parsing results...",
       Action.delay 2000,
       Action.setLoadingPhase "Analyzing sentiment and synthesizing data...",
       Action.fetch ("/api/scrape?topic=" ++ encodeURIComponent "ada")] :=
  loading_phase_sequence "ada" (FetchResult.networkError none) (by decide)

/-- C6: a run on a non-blank query issues exactly one request, to the
fixed relative endpoint with the query URL-escaped into the `topic`
parameter. (The request is a GET: `fetch` is called with a URL and no
init object.) -/
theorem submitSearch_single_request (q : String) (fr : FetchResult)
    (h : (jsTrim q).isEmpty = false) :
    (handleSearchTrace q fr).filter isFetch =
      [Action.fetch ("/api/scrape?topic=" ++ encodeURIComponent q)] := by
  cases fr with
  | networkError m =>
      simp [handleSearchTrace, h, afterFetch, isFetch]
  | response status body =>
      by_cases hok : fetchOk status
      · cases body <;> simp [handleSearchTrace, h, afterFetch, hok, isFetch]
      · simp only [Bool.not_eq_true] at hok
        simp [handleSearchTrace, h, afterFetch, hok, isFetch]

/-- Witness for C6 at the concrete query "ada & co", whose escaping
exercises both passthrough and percent-encoded characters. -/
theorem submitSearch_single_request_witness :
    (handleSearchTrace "ada & co" (FetchResult.networkError none)).filter isFetch =
      [Action.fetch ("/api/scrape?topic=" ++ encodeURIComponent "ada & co")] :=
  submitSearch_single_request "ada & co" (FetchResult.networkError none) (by decide)

/-- C7: whatever the fetch outcome, a run on a non-blank query ends with
the loading phase cleared and loading off; on an ok, decodable response
the parsed body is stored, and in every other outcome an error message
is stored. -/
theorem submitSearch_terminal_state (s : AppState) (fr : FetchResult)
    (h : (jsTrim s.searchQuery).isEmpty = false) :
    (handleSearch s fr).loadingPhase = "" ∧
    (handleSearch s fr).isLoading = false ∧
    (∀ r, successResult fr = some r → (handleSearch s fr).data = some r) ∧
    (successResult fr = none → ∃ m, (handleSearch s fr).error = some m) := by
  cases fr with
  | networkError m =>
      simp [handleSearch, handleSearchTrace, h, runActions, afterFetch, applyAction,
        successResult]
  | response status body =>
      by_cases hok : fetchOk status
      · cases body with
        | parsed r =>
            simp [handleSearch, handleSearchTrace, h, runActions, afterFetch, applyAction,
              successResult, hok]
        | parseFailed e =>
            simp [handleSearch, handleSearchTrace, h, runActions, afterFetch, applyAction,
              successResult, hok]
      · simp only [Bool.not_eq_true] at hok
        cases body <;>
          simp [handleSearch, handleSearchTrace, h, runActions, afterFetch, applyAction,
            successResult, hok]

/-- Witness for C7 at a concrete successful run. -/
theorem submitSearch_terminal_state_witness :
    (handleSearch sampleState
        (FetchResult.response 200 (JsonResult.parsed sampleResponse))).loadingPhase = "" ∧
    (handleSearch sampleState
        (FetchResult.response 200 (JsonResult.parsed sampleResponse))).isLoading = false ∧
    (handleSearch sampleState
        (FetchResult.response 200 (JsonResult.parsed sampleResponse))).data =
      some sampleResponse := by
  have h := submitSearch_terminal_state sampleState
    (FetchResult.response 200 (JsonResult.parsed sampleResponse)) (by decide)
  exact ⟨h.1, h.2.1, h.2.2.1 sampleResponse (by decide)⟩

/-- C8: the rendered summary counts and the chart's bar data equal the
lengths of the corresponding mention lists, and the all-empty payload
renders zero counts and an empty article list. -/
theorem rendered_counts_match (d : ApiResponse) :
    (renderResults d).positiveMentions = d.mentions.positive.length ∧
    (renderResults d).neutralMentions = d.mentions.neutral.length ∧
    (renderResults d).negativeMentions = d.mentions.negative.length ∧
    (renderResults d).chart =
      [{ name := "Positive", count := d.mentions.positive.length, fill := "#4ade80" },
       { name := "Neutral", count := d.mentions.neutral.length, fill := "#94a3b8" },
       { name := "Negative", count := d.mentions.negative.length, fill := "#f87171" }] ∧
    renderResults
        { name := "empty", articles := [],
          mentions := { positive := [], neutral := [], negative := [] } } =
      { name := "empty", sourcesAnalyzed := 0, positiveMentions := 0,
        neutralMentions := 0, negativeMentions := 0,
        chart :=
          [{ name := "Positive", count := 0, fill := "#4ade80" },
           { name := "Neutral", count := 0, fill := "#94a3b8" },
           { name := "Negative", count := 0, fill := "#f87171" }],
        articleCards := [], positiveQuotes := [], neutralQuotes := [],
        negativeQuotes := [] } :=
  ⟨rfl, rfl, rfl, rfl, rfl⟩

/-- C9 counterexample: while a run is in flight (`isLoading = true`,
non-blank query), pressing Enter in the query input still invokes
`handleSearch` — the input's key handler does not consult `isLoading` —
and the invoked run immediately sets `isLoading` to true again, a
loading-to-loading transition. -/
theorem second_run_while_loading_reachable :
    ({ searchQuery := "ada", isLoading := true, data := none, error := none,
       loadingPhase := "Searching social platforms..." } : AppState).isLoading = true ∧
    eventStartsSearch
      { searchQuery := "ada", isLoading := true, data := none, error := none,
        loadingPhase := "Searching social platforms..." }
      (UIEvent.inputKeyPress "Enter") = true ∧
    (handleSearchTrace "ada" (FetchResult.networkError none)).head? =
      some (Action.setIsLoading true) := by
  decide

/-- C9 (amended): while a run is in flight the submit button is disabled
and cannot start a second run, but an Enter key press in the query input
is not gated by `isLoading` and does invoke `handleSearch`, so a second
run can start while the first is still loading. -/
theorem second_run_gating (s : AppState) (h : s.isLoading = true) :
    eventStartsSearch s UIEvent.searchButtonClick = false ∧
    eventStartsSearch s (UIEvent.inputKeyPress "Enter") = true := by
  simp [eventStartsSearch, h]

/-- Witness for the amended C9 at a concrete loading state. -/
theorem second_run_gating_witness :
    eventStartsSearch
      { searchQuery := "ada", isLoading := true, data := none, error := none,
        loadingPhase := "" } UIEvent.searchButtonClick = false ∧
    eventStartsSearch
      { searchQuery := "ada", isLoading := true, data := none, error := none,
        loadingPhase := "" } (UIEvent.inputKeyPress "Enter") = true :=
  second_run_gating
    { searchQuery := "ada", isLoading := true, data := none, error := none,
      loadingPhase := "" } rfl

/-- C10: each rendered quote column is `slice(1, 10)` of its category —
indices 1 through 9 — so the first quote is never shown, at most nine
quotes appear per column, and a single-mention category renders an empty
column while its summary count is 1. -/
theorem quote_columns_slice (d : ApiResponse) :
    (renderResults d).positiveQuotes = (d.mentions.positive.drop 1).take 9 ∧
    (renderResults d).neutralQuotes = (d.mentions.neutral.drop 1).take 9 ∧
    (renderResults d).negativeQuotes = (d.mentions.negative.drop 1).take 9 ∧
    (∀ (x : String) (rest : List String), jsSlice (x :: rest) 1 10 = rest.take 9) ∧
    (∀ l : List String, (jsSlice l 1 10).length ≤ 9) ∧
    (∀ (nm : String) (arts : List Article) (q : String) (nu ng : List String),
      (renderResults ⟨nm, arts, ⟨[q], nu, ng⟩⟩).positiveQuotes = [] ∧
      (renderResults ⟨nm, arts, ⟨[q], nu, ng⟩⟩).positiveMentions = 1) := by
  refine ⟨rfl, rfl, rfl, fun x rest => rfl, fun l => ?_, fun nm arts q nu ng => ⟨rfl, rfl⟩⟩
  simp [jsSlice]

end Sea
